import Mathlib

/-!
Shallow embedding of the pyems client library (src/pyems/__init__.py and
src/pyems/protocols.py) and proofs about it.

Python values decoded from JSON are modelled by the inductive `Json`;
Python exceptions that the embedded code can raise are modelled by
`PyException`.  Fallible Python code is embedded as functions into
`Except PyException _`.
-/

namespace Pyems

/-- A JSON value, as produced by json.loads. -/
inductive Json where
  | null
  | bool (b : Bool)
  | num (n : Int)
  | str (s : String)
  | arr (elems : List Json)
  | obj (members : List (String × Json))

/-- The argument handed to the EvoStreamException constructor at its three
call sites: a JSON value (the FAIL description), a plain string message
(the invalid-uri message and, in the model of the missing utils.py, the
usage-error message naming an unexpected keyword), or a caught socket
error object. -/
inductive ExcArg where
  | ofJson (j : Json)
  | ofStr (s : String)
  | ofSocketError (e : String)
  | ofUnexpectedKey (k : String)

/-- The exceptions the embedded code can raise.  `evoStream` is the single
domain exception type EvoStreamException; every other constructor is a
distinct built-in Python exception kind. -/
inductive PyException where
  | evoStream (arg : ExcArg)
  | jsonDecodeError
  | keyError (key : String)
  | typeError
  | socketError (e : String)
  | unicodeEncodeError
  | importError
  | notImplementedError (msg : String)

/-- A raw HTTP response body, abstracted by what json.loads does with it:
either it parses to some JSON value or json.loads rejects it. -/
inductive RawBody where
  | wellFormed (j : Json)
  | malformed

/-- json.loads on a raw body: yields the parsed value, or raises
json.JSONDecodeError (a ValueError) on a malformed body. -/
def json_loads : RawBody → Except PyException Json
  | .wellFormed j => .ok j
  | .malformed => .error .jsonDecodeError

/-- Python dict subscription result[key] on a decoded JSON value: a KeyError
when the key is absent from an object, a TypeError when the value is not an
object at all. -/
def Json.getItem : Json → String → Except PyException Json
  | .obj members, key =>
    match members.lookup key with
    | some v => .ok v
    | none => .error (.keyError key)
  | _, _ => .error .typeError

/-- The Python comparison `value == "FAIL"` on a JSON-decoded value: true
exactly when the value is the string "FAIL" (no other decoded shape
compares equal to a str in Python). -/
def pyEqFAIL : Json → Bool
  | .str s => s = "FAIL"
  | _ => false

/-- BaseProtocol.parse_result (src/pyems/protocols.py lines 27-33):
parse the body as JSON; if result["status"] == "FAIL" raise
EvoStreamException(result["description"]), else return result["data"]. -/
def parse_result (result : RawBody) : Except PyException Json :=
  match json_loads result with
  | .error e => .error e
  | .ok r =>
    match r.getItem "status" with
    | .error e => .error e
    | .ok st =>
      if pyEqFAIL st then
        match r.getItem "description" with
        | .error e => .error e
        | .ok d => .error (.evoStream (.ofJson d))
      else
        r.getItem "data"

/-- BaseProtocol.execute (src/pyems/protocols.py lines 35-38): obtain the
raw result from get_result and hand it to parse_result, catching nothing.
The outcome of the get_result call is passed in explicitly. -/
def execute (get_result_outcome : Except PyException RawBody) :
    Except PyException Json :=
  match get_result_outcome with
  | .error e => .error e
  | .ok raw => parse_result raw

/-! ### The base64 alphabet and encoder/decoder used by make_uri -/

/-- The standard base64 alphabet (RFC 4648), as used by base64.b64encode. -/
def b64alphabet : List Char :=
  ['A', 'B', 'C', 'D', 'E', 'F', 'G', 'H', 'I', 'J', 'K', 'L', 'M',
   'N', 'O', 'P', 'Q', 'R', 'S', 'T', 'U', 'V', 'W', 'X', 'Y', 'Z',
   'a', 'b', 'c', 'd', 'e', 'f', 'g', 'h', 'i', 'j', 'k', 'l', 'm',
   'n', 'o', 'p', 'q', 'r', 's', 't', 'u', 'v', 'w', 'x', 'y', 'z',
   '0', '1', '2', '3', '4', '5', '6', '7', '8', '9', '+', '/']

/-- The alphabet character for a 6-bit group. -/
def b64char (n : Nat) : Char := b64alphabet.getD n 'A'

/-- Index of a character in the base64 alphabet, if present. -/
def b64index (c : Char) : Option Nat :=
  go b64alphabet
where
  go : List Char → Option Nat
    | [] => none
    | a :: as => if a = c then some 0 else (go as).map (· + 1)

/-- base64.b64encode on a byte sequence, producing the character sequence:
3-byte groups become 4 alphabet characters; a trailing group of 1 or 2
bytes is padded with "=". -/
def b64encodeList : List Nat → List Char
  | [] => []
  | [a] => [b64char (a / 4), b64char (a % 4 * 16), '=', '=']
  | [a, b] => [b64char (a / 4), b64char (a % 4 * 16 + b / 16),
               b64char (b % 16 * 4), '=']
  | a :: b :: c :: rest =>
    b64char (a / 4) :: b64char (a % 4 * 16 + b / 16) ::
    b64char (b % 16 * 4 + c / 64) :: b64char (c % 64) :: b64encodeList rest

/-- Decode one base64 quad (possibly padded) back to 1, 2 or 3 bytes. -/
def b64decodeQuad (c1 c2 c3 c4 : Char) : Option (List Nat) :=
  match b64index c1, b64index c2 with
  | some i1, some i2 =>
    if c3 = '=' then
      if c4 = '=' then some [i1 * 4 + i2 / 16] else none
    else
      match b64index c3 with
      | some i3 =>
        if c4 = '=' then some [i1 * 4 + i2 / 16, i2 % 16 * 16 + i3 / 4]
        else
          match b64index c4 with
          | some i4 =>
            some [i1 * 4 + i2 / 16, i2 % 16 * 16 + i3 / 4, i3 % 4 * 64 + i4]
          | none => none
      | none => none
  | _, _ => none

/-- A strict base64 decoder over quads; inverse of `b64encodeList`. -/
def b64decodeList : List Char → Option (List Nat)
  | [] => some []
  | c1 :: c2 :: c3 :: c4 :: rest =>
    match b64decodeQuad c1 c2 c3 c4, b64decodeList rest with
    | some bs, some rs => some (bs ++ rs)
    | _, _ => none
  | _ => none

/-- base64 decoding of a string segment, as a byte sequence. -/
def b64decodeStr (s : String) : Option (List Nat) := b64decodeList s.data

/-! ### String encoding helpers -/

/-- str.encode("ascii"): the code points of the string as bytes when every
character is ASCII (code point below 128); otherwise a
UnicodeEncodeError. -/
def strEncodeAscii (s : String) : Except PyException (List Nat) :=
  if s.data.all (fun c => c.toNat < 128) then
    .ok (s.data.map Char.toNat)
  else
    .error .unicodeEncodeError

/-- bytes.decode back to a string (each byte an ASCII code point). -/
def bytesToStr (bs : List Nat) : String := String.mk (bs.map Char.ofNat)

/-- Python sep.join(pieces). -/
def strJoin (sep : String) : List String → String
  | [] => ""
  | [x] => x
  | x :: xs => x ++ sep ++ strJoin sep xs

/-- The list comprehension in make_uri: the "key=value" serialization of
each parameter, in the iteration (insertion) order of the mapping. -/
def serializeParams (params : List (String × String)) : List String :=
  params.map (fun p => p.1 ++ "=" ++ p.2)

/-! ### HTTPProtocol -/

/-- HTTPProtocol.make_uri (src/pyems/protocols.py lines 42-48): the path
"/command"; when the parameter mapping is non-empty, the "key=value" pairs
are joined by single spaces, ASCII-encoded, base64-encoded and appended as
the single query parameter "params".  The keyword-argument mapping is
modelled as a list of key-value pairs in insertion order. -/
def make_uri (command : String) (params : List (String × String)) :
    Except PyException String :=
  let uri := "/" ++ command
  if params.length > 0 then
    let str_params := strJoin " " (serializeParams params)
    match strEncodeAscii str_params with
    | .error e => .error e
    | .ok bytes => .ok (uri ++ "?params=" ++ String.mk (b64encodeList bytes))
  else
    .ok uri

/-- The outcome of one socket-level interaction: either it succeeds with a
value or a socket.error carrying a message is raised. -/
def SocketOutcome (α : Type) := Except String α

/-- HTTPProtocol.get_result (src/pyems/protocols.py lines 50-58): build the
URI, issue conn.request("GET", uri) inside a try that turns socket.error
into EvoStreamException, then read the response outside of any try.  The
network is passed in as the outcomes of the request phase (conn.request)
and of the read phase (conn.getresponse / response.read); the second
component of the result counts how many times conn.request ran. -/
def get_result (hostname : String) (port : Int) (command : String)
    (params : List (String × String))
    (requestOutcome : Except String Unit)
    (readOutcome : Except String RawBody) :
    Except PyException RawBody × Nat :=
  let _conn := (hostname, port)
  match make_uri command params with
  | .error e => (.error e, 0)
  | .ok _uri =>
    match requestOutcome with
    | .error ex => (.error (.evoStream (.ofSocketError ex)), 1)
    | .ok _ =>
      match readOutcome with
      | .error ex => (.error (.socketError ex), 1)
      | .ok body => (.ok body, 1)

/-- TelnetProtocol.get_result (src/pyems/protocols.py lines 61-63): always
raises NotImplementedError. -/
def telnet_get_result (_command : String)
    (_params : List (String × String)) : Except PyException RawBody :=
  .error (.notImplementedError "Telnet protocol is not implemented")

/-! ### Api construction -/

/-- The SCHEMES registry (src/pyems/protocols.py lines 13-16), mapping a
URI scheme to the dotted path of the protocol class implementing it. -/
def SCHEMES : List (String × String) :=
  [("http", "pyems.protocols.HTTPProtocol"),
   ("telnet", "pyems.protocols.TelnetProtocol")]

/-- The two protocol classes defined in src/pyems/protocols.py. -/
inductive ProtocolClass where
  | httpProtocol
  | telnetProtocol

/-- Modelled from the spec: `get_module_class` lives in the repository file
utils.py, which is absent from src/.  Per the spec it is "a registry
mapping a string to a dynamically loaded class": it resolves a dotted
class path to the class it names, failing with an import-style error (not
a KeyError) for a path it cannot load. -/
def get_module_class (path : String) : Except PyException ProtocolClass :=
  if path = "pyems.protocols.HTTPProtocol" then .ok .httpProtocol
  else if path = "pyems.protocols.TelnetProtocol" then .ok .telnetProtocol
  else .error .importError

/-- A connection URI after urlparse (URI parsing itself is out of scope for
the spec); `raw` keeps the original URI string for error messages. -/
structure ParsedUrl where
  raw : String
  scheme : String
  hostname : String
  port : Int

/-- A constructed protocol object: the class instantiated with hostname
and port, as `protocol_class(url.hostname, url.port)` does. -/
structure Protocol where
  cls : ProtocolClass
  hostname : String
  port : Int

/-- Api.__init__ (src/pyems/__init__.py lines 11-17): look the scheme up in
SCHEMES and load the protocol class; a KeyError from the lookup becomes
EvoStreamException with the message naming the original URI; on success
the protocol object is stored. -/
def Api.init (url : ParsedUrl) : Except PyException Protocol :=
  match SCHEMES.lookup url.scheme with
  | none => .error (.evoStream (.ofStr ("Invalid uri \"" ++ url.raw ++ "\"")))
  | some path =>
    match get_module_class path with
    | .error e => .error e
    | .ok cls => .ok { cls := cls, hostname := url.hostname, port := url.port }

/-! ### The keyword-argument validator and the facade operations -/

/-- Modelled from the spec: the `expected` decorator lives in the
repository file utils.py, which is absent from src/.  Per the spec it
checks "the set of keyword argument names actually supplied" against "a
fixed allow-list declared per operation" and fails "with an
UnexpectedParameter-kind error, naming the offending key, if any supplied
name is absent from the allow-list"; on success the arguments pass through
unmodified.  The error is the domain exception carrying the offending
key. -/
def expected (allowed : List String) (kwargs : List (String × String)) :
    Except PyException Unit :=
  match kwargs.find? (fun p => !allowed.contains p.1) with
  | some p => .error (.evoStream (.ofUnexpectedKey p.1))
  | none => .ok ()

/-- A facade operation as assembled by the `expected` decorator: validate
the supplied keyword arguments first and only on success run the wrapped
method body (which performs the transport send).  The body is passed in
together with how many transport sends it performs; the second component
of the result is the number of transport sends that occurred. -/
def facade_operation (allowed : List String)
    (body : List (String × String) → Except PyException Json × Nat)
    (kwargs : List (String × String)) : Except PyException Json × Nat :=
  match expected allowed kwargs with
  | .error e => (.error e, 0)
  | .ok _ => body kwargs

/-- The allow-list declared on Api.pull_stream
(src/pyems/__init__.py lines 19-22). -/
def pull_stream_expected : List String :=
  ["uri", "keepAlive", "localStreamName", "forceTcp", "tcUrl",
   "pageUrl", "swfUrl", "rangeStart", "rangeEnd", "ttl", "tos",
   "rtcpDetectionInterval", "emulateUserAgent", "isAudio",
   "audioCodecBytes", "spsBytes", "ppsBytes", "ssmIp", "httpProxy"]

/-- The value make_uri places after "?params=": the base64 encoding of the
ASCII bytes of the space-joined "key=value" serialization. -/
def uriParamsSegment (params : List (String × String)) : String :=
  String.mk (b64encodeList
    ((strJoin " " (serializeParams params)).data.map Char.toNat))

/-! ### Helper lemmas -/

theorem b64index_b64char : ∀ n, n < 64 → b64index (b64char n) = some n := by
  decide

theorem b64char_ne_pad : ∀ n, n < 64 → b64char n ≠ '=' := by
  decide

/-- The strict decoder inverts the encoder on byte sequences. -/
theorem b64_roundtrip : ∀ bs : List Nat, (∀ x ∈ bs, x < 256) →
    b64decodeList (b64encodeList bs) = some bs
  | [], _ => rfl
  | [a], h => by
    have ha : a < 256 := h a (by simp)
    have h1 : a / 4 < 64 := by omega
    have h2 : a % 4 * 16 < 64 := by omega
    simp only [b64encodeList, b64decodeList, b64decodeQuad,
      b64index_b64char _ h1, b64index_b64char _ h2]
    simp
    omega
  | [a, b], h => by
    have ha : a < 256 := h a (by simp)
    have hb : b < 256 := h b (by simp)
    have h1 : a / 4 < 64 := by omega
    have h2 : a % 4 * 16 + b / 16 < 64 := by omega
    have h3 : b % 16 * 4 < 64 := by omega
    simp only [b64encodeList, b64decodeList, b64decodeQuad,
      b64index_b64char _ h1, b64index_b64char _ h2, b64index_b64char _ h3]
    simp [b64char_ne_pad _ h3]
    omega
  | a :: b :: c :: rest, h => by
    have ha : a < 256 := h a (by simp)
    have hb : b < 256 := h b (by simp)
    have hc : c < 256 := h c (by simp)
    have ih := b64_roundtrip rest (fun x hx => h x (by simp [hx]))
    have h1 : a / 4 < 64 := by omega
    have h2 : a % 4 * 16 + b / 16 < 64 := by omega
    have h3 : b % 16 * 4 + c / 64 < 64 := by omega
    have h4 : c % 64 < 64 := by omega
    simp only [b64encodeList, b64decodeList, b64decodeQuad,
      b64index_b64char _ h1, b64index_b64char _ h2, b64index_b64char _ h3,
      b64index_b64char _ h4, ih]
    simp [b64char_ne_pad _ h3, b64char_ne_pad _ h4]
    omega

/-- Decoding the code points of a string back to characters is the
identity. -/
theorem bytesToStr_map_toNat (s : String) :
    bytesToStr (s.data.map Char.toNat) = s := by
  cases s with
  | mk l => simp [bytesToStr, List.map_map, Function.comp_def, Char.ofNat_toNat]

/-- Every character of a joined piece is a character of the join. -/
theorem mem_strJoin_of_mem_piece :
    ∀ (l : List String) (p : String), p ∈ l →
      ∀ c ∈ p.data, c ∈ (strJoin " " l).data
  | [], _, hp => by cases hp
  | [x], p, hp => by
    rcases List.mem_singleton.mp hp with rfl
    intro c hc
    simpa [strJoin] using hc
  | x :: y :: xs, p, hp => by
    intro c hc
    rcases List.mem_cons.mp hp with rfl | hp2
    · simp [strJoin, String.data_append]
      exact Or.inl hc
    · have ih := mem_strJoin_of_mem_piece (y :: xs) p hp2 c hc
      simp [strJoin, String.data_append] at ih ⊢
      tauto

/-- The item lookup on a decoded JSON value only raises KeyError or
TypeError, never the domain exception. -/
theorem getItem_error_shape (j : Json) (key : String) (e : PyException)
    (h : j.getItem key = .error e) : e = .typeError ∨ ∃ k, e = .keyError k := by
  cases j <;> simp [Json.getItem] at h <;> try (left; exact h.symm)
  case obj members =>
    cases hm : members.lookup key with
    | some v => rw [hm] at h; cases h
    | none => rw [hm] at h; right; exact ⟨key, by cases h; rfl⟩

/-- Characters of a space-join are either the space or characters of a
piece. -/
theorem strJoin_chars_cases :
    ∀ (l : List String), ∀ c ∈ (strJoin " " l).data,
      c = ' ' ∨ ∃ p ∈ l, c ∈ p.data
  | [] => by intro c hc; cases hc
  | [x] => by
    intro c hc
    exact Or.inr ⟨x, by simp, by simpa [strJoin] using hc⟩
  | x :: y :: xs => by
    intro c hc
    simp only [strJoin, String.data_append, List.mem_append,
      List.mem_singleton] at hc
    rcases hc with (hx | hsp) | hjoin
    · exact Or.inr ⟨x, by simp, hx⟩
    · exact Or.inl hsp
    · rcases strJoin_chars_cases (y :: xs) c hjoin with h | ⟨p, hp, hcp⟩
      · exact Or.inl h
      · exact Or.inr ⟨p, List.mem_cons_of_mem x hp, hcp⟩

/-- When every key and value of the parameter mapping is ASCII, so is the
space-joined "key=value" serialization. -/
theorem strJoin_serialize_ascii (params : List (String × String))
    (hascii : ∀ p ∈ params,
      (∀ c ∈ p.1.data, c.toNat < 128) ∧ (∀ c ∈ p.2.data, c.toNat < 128)) :
    ∀ c ∈ (strJoin " " (serializeParams params)).data, c.toNat < 128 := by
  intro c hc
  rcases strJoin_chars_cases (serializeParams params) c hc with rfl | ⟨p, hp, hcp⟩
  · decide
  · rcases List.mem_map.mp hp with ⟨kv, hkv, rfl⟩
    have hdata : (kv.1 ++ "=" ++ kv.2).data = kv.1.data ++ '=' :: kv.2.data := by
      simp [String.data_append]
    rw [hdata] at hcp
    rcases List.mem_append.mp hcp with hk | hv
    · exact (hascii kv hkv).1 c hk
    · rcases List.mem_cons.mp hv with rfl | hv2
      · decide
      · exact (hascii kv hkv).2 c hv2

/-- make_uri on a non-empty, ASCII-encodable parameter mapping: the
success path, with the encoded segment spelled out. -/
theorem make_uri_nonempty_eq (command : String)
    (params : List (String × String)) (hne : params ≠ [])
    (hjoin : ∀ c ∈ (strJoin " " (serializeParams params)).data, c.toNat < 128) :
    make_uri command params =
      .ok ("/" ++ command ++ "?params=" ++ uriParamsSegment params) := by
  have hlen : params.length > 0 := List.length_pos.mpr hne
  have hall : (strJoin " " (serializeParams params)).data.all
      (fun c => c.toNat < 128) = true :=
    List.all_eq_true.mpr (fun c hc => decide_eq_true (hjoin c hc))
  simp [make_uri, strEncodeAscii, hlen, hall, uriParamsSegment]

/-- make_uri on a mapping whose serialization has a non-ASCII character:
str.encode("ascii") raises UnicodeEncodeError. -/
theorem make_uri_nonascii_eq (command : String)
    (params : List (String × String)) (hne : params ≠ [])
    (c0 : Char) (hc0 : c0 ∈ (strJoin " " (serializeParams params)).data)
    (hge : 128 ≤ c0.toNat) :
    make_uri command params = .error .unicodeEncodeError := by
  have hlen : params.length > 0 := List.length_pos.mpr hne
  have hall : (strJoin " " (serializeParams params)).data.all
      (fun c => c.toNat < 128) = false := by
    cases hcase : (strJoin " " (serializeParams params)).data.all
        (fun c => c.toNat < 128) with
    | false => rfl
    | true =>
      have := List.all_eq_true.mp hcase c0 hc0
      simp at this
      omega
  simp [make_uri, strEncodeAscii, hlen, hall]

/-! ### Claim theorems -/

/-- C2: make_uri with an empty parameter mapping returns exactly "/"
followed by the command; with a non-empty mapping (of ASCII-encodable
keys and values, as the ascii codec demands) it returns "/" ++ command ++
"?params=" ++ the base64 encoding of the "key=value" pairs joined by
single spaces. -/
theorem make_uri_format (command : String) (params : List (String × String)) :
    (params = [] → make_uri command params = .ok ("/" ++ command)) ∧
    (params ≠ [] →
      (∀ p ∈ params,
        (∀ c ∈ p.1.data, c.toNat < 128) ∧ (∀ c ∈ p.2.data, c.toNat < 128)) →
      make_uri command params =
        .ok ("/" ++ command ++ "?params=" ++ uriParamsSegment params) ∧
      uriParamsSegment params =
        String.mk (b64encodeList
          ((strJoin " " (params.map (fun p => p.1 ++ "=" ++ p.2))).data.map
            Char.toNat))) := by
  refine ⟨fun h => ?_, fun hne hascii => ?_⟩
  · subst h; rfl
  · exact ⟨make_uri_nonempty_eq command params hne
      (strJoin_serialize_ascii params hascii), rfl⟩

/-- Witness for C2: the two spec examples, make_uri("listStreams") and
make_uri("listStreams", id="3"); the segment is the base64 of "id=3". -/
theorem make_uri_format_witness :
    make_uri "listStreams" [] = .ok "/listStreams" ∧
    make_uri "listStreams" [("id", "3")] =
      .ok ("/" ++ "listStreams" ++ "?params=" ++ uriParamsSegment [("id", "3")]) ∧
    uriParamsSegment [("id", "3")] = "aWQ9Mw==" ∧
    strJoin " " (serializeParams [("id", "3")]) = "id=3" :=
  ⟨(make_uri_format "listStreams" []).1 rfl,
   ((make_uri_format "listStreams" [("id", "3")]).2 (by simp) (by decide)).1,
   rfl, rfl⟩

/-- C3: for a non-empty ASCII parameter mapping, base64-decoding the
segment after "?params=" in the produced URI recovers exactly the
space-joined "key=value" string, which is the join of each supplied
pair's "key=value" serialization, one entry per pair, in the insertion
order of the mapping. -/
theorem make_uri_roundtrip (command : String)
    (params : List (String × String)) (hne : params ≠ [])
    (hascii : ∀ p ∈ params,
      (∀ c ∈ p.1.data, c.toNat < 128) ∧ (∀ c ∈ p.2.data, c.toNat < 128)) :
    make_uri command params =
      .ok ("/" ++ command ++ "?params=" ++ uriParamsSegment params) ∧
    (b64decodeStr (uriParamsSegment params)).map bytesToStr =
      some (strJoin " " (serializeParams params)) ∧
    serializeParams params = params.map (fun p => p.1 ++ "=" ++ p.2) := by
  have hjoin := strJoin_serialize_ascii params hascii
  refine ⟨make_uri_nonempty_eq command params hne hjoin, ?_, rfl⟩
  have hbytes : ∀ x ∈ (strJoin " " (serializeParams params)).data.map
      Char.toNat, x < 256 := by
    intro x hx
    rcases List.mem_map.mp hx with ⟨c, hc, rfl⟩
    have := hjoin c hc
    omega
  have hdec := b64_roundtrip
    ((strJoin " " (serializeParams params)).data.map Char.toNat) hbytes
  simp only [uriParamsSegment, b64decodeStr]
  simp [hdec, bytesToStr_map_toNat]

/-- Witness for C3: the spec example mapping a=1, b=two; the decoded
segment is "a=1 b=two", the two pairs in insertion order. -/
theorem make_uri_roundtrip_witness :
    (make_uri "listStreams" [("a", "1"), ("b", "two")] =
      .ok ("/" ++ "listStreams" ++ "?params=" ++
        uriParamsSegment [("a", "1"), ("b", "two")]) ∧
    (b64decodeStr (uriParamsSegment [("a", "1"), ("b", "two")])).map bytesToStr =
      some (strJoin " " (serializeParams [("a", "1"), ("b", "two")])) ∧
    serializeParams [("a", "1"), ("b", "two")] =
      [("a", "1"), ("b", "two")].map (fun p => p.1 ++ "=" ++ p.2)) ∧
    uriParamsSegment [("a", "1"), ("b", "two")] = "YT0xIGI9dHdv" ∧
    strJoin " " (serializeParams [("a", "1"), ("b", "two")]) = "a=1 b=two" :=
  ⟨make_uri_roundtrip "listStreams" [("a", "1"), ("b", "two")]
      (by simp) (by decide),
   rfl, rfl⟩

/-- C10: make_uri ASCII-encodes the joined "key=value" string before
base64: with every key and value ASCII it succeeds, while a mapping in
which some key or value has a non-ASCII character makes make_uri raise
UnicodeEncodeError (not the domain exception), and get_result then fails
before any request is issued (zero conn.request invocations). -/
theorem make_uri_ascii_only (command : String)
    (params : List (String × String)) :
    ((∀ p ∈ params,
        (∀ c ∈ p.1.data, c.toNat < 128) ∧ (∀ c ∈ p.2.data, c.toNat < 128)) →
      ∃ s, make_uri command params = .ok s) ∧
    (∀ p ∈ params,
      ((∃ c ∈ p.1.data, 128 ≤ c.toNat) ∨ (∃ c ∈ p.2.data, 128 ≤ c.toNat)) →
      make_uri command params = .error .unicodeEncodeError ∧
      (∀ a, PyException.unicodeEncodeError ≠ .evoStream a) ∧
      ∀ hostname port requestOutcome readOutcome,
        get_result hostname port command params requestOutcome readOutcome =
          (.error .unicodeEncodeError, 0)) := by
  constructor
  · intro hascii
    cases hp : params with
    | nil => exact ⟨"/" ++ command, rfl⟩
    | cons q qs =>
      rw [← hp]
      exact ⟨_, make_uri_nonempty_eq command params (by simp [hp])
        (strJoin_serialize_ascii params hascii)⟩
  · intro p hp hbad
    have hne : params ≠ [] := by
      intro h; rw [h] at hp; cases hp
    have hpiece : p.1 ++ "=" ++ p.2 ∈ serializeParams params :=
      List.mem_map_of_mem _ hp
    have hdata : (p.1 ++ "=" ++ p.2).data = p.1.data ++ '=' :: p.2.data := by
      simp [String.data_append]
    have hmem : ∃ c0, c0 ∈ (strJoin " " (serializeParams params)).data ∧
        128 ≤ c0.toNat := by
      rcases hbad with ⟨c0, hc0, hge⟩ | ⟨c0, hc0, hge⟩
      · exact ⟨c0, mem_strJoin_of_mem_piece _ _ hpiece c0
          (by rw [hdata]; exact List.mem_append_left _ hc0), hge⟩
      · exact ⟨c0, mem_strJoin_of_mem_piece _ _ hpiece c0
          (by rw [hdata]
              exact List.mem_append_right _ (List.mem_cons_of_mem _ hc0)), hge⟩
    rcases hmem with ⟨c0, hc0, hge⟩
    have herr := make_uri_nonascii_eq command params hne c0 hc0 hge
    refine ⟨herr, fun a h => ?_, fun hostname port ro rdo => ?_⟩
    · cases h
    · simp [get_result, herr]

/-- Witness for C10: an all-ASCII mapping succeeds; a value holding the
non-ASCII character é makes make_uri (and get_result, with zero requests)
fail with UnicodeEncodeError. -/
theorem make_uri_ascii_only_witness :
    (∃ s, make_uri "pullStream" [("uri", "rtmp://src")] = .ok s) ∧
    (make_uri "pullStream" [("localStreamName", "café")] =
        .error .unicodeEncodeError ∧
      (∀ a, PyException.unicodeEncodeError ≠ .evoStream a) ∧
      ∀ hostname port requestOutcome readOutcome,
        get_result hostname port "pullStream" [("localStreamName", "café")]
          requestOutcome readOutcome = (.error .unicodeEncodeError, 0)) :=
  ⟨(make_uri_ascii_only "pullStream" [("uri", "rtmp://src")]).1 (by decide),
   (make_uri_ascii_only "pullStream" [("localStreamName", "café")]).2
     ("localStreamName", "café") (by simp) (by decide)⟩

/-- C4: for every response body that parses as a JSON value whose "status"
field is the string "FAIL" and that carries a "description" field (a
string), parse_result raises the domain error EvoStreamException whose
message is exactly the server-supplied description, and returns no
payload. -/
theorem parse_result_fail_raises (j : Json) (desc : String)
    (hst : j.getItem "status" = .ok (.str "FAIL"))
    (hd : j.getItem "description" = .ok (.str desc)) :
    parse_result (.wellFormed j) =
      .error (.evoStream (.ofJson (.str desc))) := by
  simp [parse_result, json_loads, hst, hd, pyEqFAIL]

/-- Witness for C4: the body from the spec example,
status FAIL with description "stream not found". -/
theorem parse_result_fail_raises_witness :
    parse_result (.wellFormed (.obj
        [("status", .str "FAIL"), ("description", .str "stream not found")])) =
      .error (.evoStream (.ofJson (.str "stream not found"))) :=
  parse_result_fail_raises _ "stream not found" rfl rfl

/-- C5: for every response body that parses as a JSON value whose "status"
field is the string "OK" and that has a "data" field, parse_result returns
the data field verbatim, whatever its shape, and raises no error. -/
theorem parse_result_ok_returns_data (j d : Json)
    (hst : j.getItem "status" = .ok (.str "OK"))
    (hd : j.getItem "data" = .ok d) :
    parse_result (.wellFormed j) = .ok d := by
  simp [parse_result, json_loads, hst, hd, pyEqFAIL]

/-- Witness for C5: the body from the spec example,
status OK with data an object holding count 5. -/
theorem parse_result_ok_returns_data_witness :
    parse_result (.wellFormed (.obj
        [("status", .str "OK"), ("data", .obj [("count", .num 5)])])) =
      .ok (.obj [("count", .num 5)]) :=
  parse_result_ok_returns_data _ _ rfl rfl

/-- C6: a body that json.loads cannot parse fails with the JSON decode
error, and a parsed body without a "status" field fails with the lookup
error, both distinct from the domain exception EvoStreamException and
neither caught nor translated by parse_result or execute (execute passes
every get_result body straight to parse_result and re-raises every
exception untouched). -/
theorem parse_error_generic :
    (parse_result .malformed = .error .jsonDecodeError ∧
      ∀ a, PyException.jsonDecodeError ≠ .evoStream a) ∧
    (∀ (j : Json) (e : PyException), j.getItem "status" = .error e →
      parse_result (.wellFormed j) = .error e ∧
        ∀ a, e ≠ .evoStream a) ∧
    (∀ body, execute (.ok body) = parse_result body) ∧
    (∀ e, execute (.error e) = .error e) := by
  refine ⟨⟨rfl, fun a h => by cases h⟩, fun j e hst => ⟨?_, ?_⟩,
    fun body => rfl, fun e => rfl⟩
  · simp [parse_result, json_loads, hst]
  · intro a
    rcases getItem_error_shape j "status" e hst with rfl | ⟨k, rfl⟩ <;>
      intro h <;> cases h

/-- Witness for C6: a parsed object without a "status" field fails with
the KeyError for "status", which is not the domain exception. -/
theorem parse_error_generic_witness :
    parse_result (.wellFormed (.obj [("data", .null)])) =
        .error (.keyError "status") ∧
      ∀ a, PyException.keyError "status" ≠ .evoStream a :=
  parse_error_generic.2.1 (.obj [("data", .null)]) (.keyError "status") rfl

/-- C9: parse_result compares the "status" field only against the string
"FAIL"; whenever the status field holds any other value (any other string,
or any other JSON shape), it takes the success branch and evaluates to the
"data" lookup: the data field when present, a KeyError otherwise.  The
status is never checked to equal "OK". -/
theorem parse_result_status_only_fail (j st : Json)
    (hst : j.getItem "status" = .ok st) (hne : st ≠ .str "FAIL") :
    parse_result (.wellFormed j) = j.getItem "data" := by
  have hfalse : pyEqFAIL st = false := by
    cases st with
    | str s =>
      simp only [pyEqFAIL, decide_eq_false_iff_not]
      intro h
      exact hne (by rw [h])
    | _ => rfl
  simp [parse_result, json_loads, hst, hfalse]

/-- Witness for C9: a body whose status is the string "ERROR" is treated
as success and yields the data field. -/
theorem parse_result_status_only_fail_witness :
    parse_result (.wellFormed (.obj
        [("status", .str "ERROR"), ("data", .num 1)])) =
      (Json.obj [("status", .str "ERROR"), ("data", .num 1)]).getItem "data" ∧
    (Json.obj [("status", .str "ERROR"), ("data", .num 1)]).getItem "data" =
      .ok (.num 1) :=
  ⟨parse_result_status_only_fail _ _ rfl
    (fun h => absurd (Json.str.inj h) (by decide)), rfl⟩

/-- C1: a facade operation with a declared allow-list, called with at
least one keyword argument whose name is outside the allow-list, fails
with the domain usage error naming an offending key and performs zero
transport sends; when every supplied keyword name is allowed, validation
succeeds and the wrapped body receives the arguments unmodified. -/
theorem expected_rejects_unknown_keys (allowed : List String)
    (body : List (String × String) → Except PyException Json × Nat)
    (kwargs : List (String × String)) :
    ((∃ p ∈ kwargs, allowed.contains p.1 = false) →
      ∃ k, (∃ v, (k, v) ∈ kwargs) ∧ allowed.contains k = false ∧
        facade_operation allowed body kwargs =
          (.error (.evoStream (.ofUnexpectedKey k)), 0)) ∧
    ((∀ p ∈ kwargs, allowed.contains p.1 = true) →
      expected allowed kwargs = .ok () ∧
      facade_operation allowed body kwargs = body kwargs) := by
  constructor
  · intro hbad
    have hsome : (kwargs.find? (fun p => !allowed.contains p.1)).isSome := by
      rw [List.find?_isSome]
      rcases hbad with ⟨p, hp, hnc⟩
      exact ⟨p, hp, by rw [hnc]; rfl⟩
    rcases Option.isSome_iff_exists.mp hsome with ⟨p0, hp0⟩
    have hmem := List.mem_of_find?_eq_some hp0
    have hpred := List.find?_some hp0
    have hexp : expected allowed kwargs =
        .error (.evoStream (.ofUnexpectedKey p0.1)) := by
      unfold expected
      rw [hp0]
    refine ⟨p0.1, ⟨p0.2, hmem⟩, ?_, ?_⟩
    · rcases hc : allowed.contains p0.1 with _ | _
      · rfl
      · rw [hc] at hpred; cases hpred
    · unfold facade_operation
      rw [hexp]
  · intro hgood
    have hnone : kwargs.find? (fun p => !allowed.contains p.1) = none := by
      rw [List.find?_eq_none]
      intro p hp
      rw [hgood p hp]
      decide
    have hexp : expected allowed kwargs = .ok () := by
      unfold expected
      rw [hnone]
    exact ⟨hexp, by unfold facade_operation; rw [hexp]⟩

/-- Witness for C1: pull_stream's declared allow-list rejects the unknown
keyword "bogus" with zero sends, and passes an allowed call through to
the body unchanged. -/
theorem expected_rejects_unknown_keys_witness :
    (∃ k, (∃ v, (k, v) ∈ [("bogus", "1")]) ∧
      pull_stream_expected.contains k = false ∧
      facade_operation pull_stream_expected
          (fun _ => (.ok (.obj []), 1)) [("bogus", "1")] =
        (.error (.evoStream (.ofUnexpectedKey k)), 0)) :=
  (expected_rejects_unknown_keys pull_stream_expected _ _).1
    ⟨("bogus", "1"), by simp, by decide⟩

/-- C7: constructing the Api client from a URI whose scheme is not a key
of SCHEMES fails immediately with the domain error whose message names the
original URI and yields no protocol object; for a recognized scheme
(a key of SCHEMES) construction succeeds with a protocol object holding
the hostname and port. -/
theorem api_init_scheme_check (url : ParsedUrl) :
    (SCHEMES.lookup url.scheme = none →
      Api.init url = .error (.evoStream (.ofStr
        ("Invalid uri \"" ++ url.raw ++ "\"")))) ∧
    ((SCHEMES.lookup url.scheme).isSome →
      ∃ prot, Api.init url = .ok prot ∧
        prot.hostname = url.hostname ∧ prot.port = url.port) := by
  constructor
  · intro hnone
    unfold Api.init
    rw [hnone]
  · intro hsome
    have hcase : url.scheme = "http" ∨ url.scheme = "telnet" := by
      by_cases h1 : url.scheme = "http"
      · exact Or.inl h1
      · by_cases h2 : url.scheme = "telnet"
        · exact Or.inr h2
        · exfalso
          have e1 : (url.scheme == "http") = false := by
            rw [beq_eq_false_iff_ne]; exact h1
          have e2 : (url.scheme == "telnet") = false := by
            rw [beq_eq_false_iff_ne]; exact h2
          have : SCHEMES.lookup url.scheme = none := by
            simp [SCHEMES, List.lookup, e1, e2]
          rw [this] at hsome
          cases hsome
    rcases hcase with h | h <;>
      exact ⟨_, by unfold Api.init; rw [h]; rfl, rfl, rfl⟩

/-- Witness for C7: the spec example ftp://host:21 is rejected with the
message naming the URI; an http URI constructs successfully. -/
theorem api_init_scheme_check_witness :
    Api.init ⟨"ftp://host:21", "ftp", "host", 21⟩ =
      .error (.evoStream (.ofStr "Invalid uri \"ftp://host:21\"")) ∧
    ∃ prot, Api.init ⟨"http://localhost:7777", "http", "localhost", 7777⟩ =
        .ok prot ∧ prot.hostname = "localhost" ∧ prot.port = 7777 :=
  ⟨(api_init_scheme_check ⟨"ftp://host:21", "ftp", "host", 21⟩).1 rfl,
   (api_init_scheme_check ⟨"http://localhost:7777", "http", "localhost",
      7777⟩).2 rfl⟩

/-- Counterexample for C8: a socket-level failure raised while reading the
response (conn.getresponse / response.read are outside the try block in
HTTPProtocol.get_result) escapes get_result as a raw socket error, not
wrapped into the domain exception — refuting the clause that no socket
error escapes get_result un-wrapped. -/
theorem get_result_read_escape_cex :
    get_result "localhost" 80 "listStreams" [] (.ok ())
        (.error "connection reset") =
      (.error (.socketError "connection reset"), 1) ∧
    ∀ a, PyException.socketError "connection reset" ≠ .evoStream a :=
  ⟨rfl, fun a h => by cases h⟩

/-- C8 (amended): every socket.error raised by conn.request while issuing
the request is caught and re-raised as the domain exception carrying the
underlying cause; a socket.error raised while reading the response is
outside the try block and propagates unwrapped. -/
theorem get_result_socket_wrapping (hostname : String) (port : Int)
    (command : String) (params : List (String × String)) (uri : String)
    (huri : make_uri command params = .ok uri) :
    (∀ ex readOutcome,
      get_result hostname port command params (.error ex) readOutcome =
        (.error (.evoStream (.ofSocketError ex)), 1)) ∧
    (∀ ex, get_result hostname port command params (.ok ()) (.error ex) =
        (.error (.socketError ex), 1)) :=
  ⟨fun ex readOutcome => by simp [get_result, huri],
   fun ex => by simp [get_result, huri]⟩

/-- Witness for C8: with the empty parameter mapping (whose URI always
builds), a request-phase connection failure is wrapped into the domain
exception. -/
theorem get_result_socket_wrapping_witness :
    get_result "localhost" 80 "listStreams" []
        (.error "connection refused") (.ok (.wellFormed .null)) =
      (.error (.evoStream (.ofSocketError "connection refused")), 1) :=
  (get_result_socket_wrapping "localhost" 80 "listStreams" []
      "/listStreams" rfl).1 "connection refused" (.ok (.wellFormed .null))

end Pyems
